import Mathlib

/-!
Verification development for the credential dApp core.

The repository's verification UI (`VerificationPortal`), issuance UI
(`InstitutionDashboard`) and wallet UI (`StudentWallet`) are embedded as pure
state-transition functions.  External collaborators (the credential store,
the IPFS upload, the ledger mint, the index write, the subscription oracle)
are passed in as function parameters, and the calls a handler makes to them
are recorded in an explicit event trace, so that statements about "which
collaborator was consulted" are expressible.
-/

/-- A credential as returned by the verification lookup and rendered by the
portal (fields of the `Credential` TS type used in the components). -/
structure Credential where
  tokenId : String
  student : String
  institution : String
  degree : String
  issueDate : Nat
  ipfsHash : String
  revoked : Bool
deriving DecidableEq

/-- Result of the external `verifyCredential` call: a credential, a null
result (not found), or a thrown error with a message. -/
inductive FetchResult
  | found (c : Credential)
  | notFound
  | threw (msg : String)
deriving DecidableEq

/-- External calls observable from the verification portal: the credential
store lookup (`verifyCredential`) and the entitlement oracle
(`checkUserSubscription`). -/
inductive ExtEvent
  | fetchCredential (id : String)
  | subscriptionCheck (addr : String) (scope : String)
deriving DecidableEq

/-- Outcome of one `handleVerify` call, classifying which branch returned. -/
inductive VerifyOutcome
  | emptyInput
  | quotaExceeded
  | success (c : Credential)
  | notFound
  | fetchError (msg : String)
deriving DecidableEq

/-- The `VerificationPortal` component state: one field per `useState` hook. -/
structure PortalState where
  tokenId : String
  credential : Option Credential
  loading : Bool
  error : Option String
  searched : Bool
  walletAddress : Option String
  hasAccess : Bool
  checkingAccess : Bool
  showPricing : Bool
  verificationCount : Nat
deriving DecidableEq

/-- The initial values of the `useState` hooks of `VerificationPortal`;
this is the component state at every fresh mount (new session, page
reload). -/
def initialPortalState : PortalState :=
  { tokenId := ""
    credential := none
    loading := false
    error := none
    searched := false
    walletAddress := none
    hasAccess := false
    checkingAccess := false
    showPricing := false
    verificationCount := 0 }

/-- JavaScript `a || b` on strings: the empty string is falsy. -/
def jsOr (a b : String) : String := if a = "" then b else a

/-- JavaScript `s.trim()`: the string with leading and trailing whitespace
removed (written over `List Char` so that it evaluates by kernel
reduction). -/
def jsTrim (s : String) : String :=
  ⟨((s.toList.dropWhile Char.isWhitespace).reverse.dropWhile Char.isWhitespace).reverse⟩

/-- Body of `handleVerify` after the `id || tokenId` defaulting has produced
the identifier `idToVerify` to look up.  Mirrors part_000 lines 78–111:
empty-input check, quota guard (wallet connected, no access, count ≥ 3 →
error and pricing modal, the store is not consulted), then the
`verifyCredential` call with the count incremented only on a found result
for an identified caller without access. -/
def handleVerifyWith (fetch : String → FetchResult) (idToVerify : String)
    (s : PortalState) : PortalState × VerifyOutcome × List ExtEvent :=
  if jsTrim idToVerify = "" then
    ({ s with error := some "Please enter a token ID" }, .emptyInput, [])
  else if s.walletAddress.isSome = true ∧ s.hasAccess = false ∧ 3 ≤ s.verificationCount then
    ({ s with
        error := some "Verification limit reached. Please subscribe to continue."
        showPricing := true },
      .quotaExceeded, [])
  else
    let s1 := { s with loading := false, error := none, credential := none, searched := true }
    match fetch idToVerify with
    | .found c =>
        if s.walletAddress.isSome = true ∧ s.hasAccess = false then
          ({ s1 with credential := some c, verificationCount := s.verificationCount + 1 },
            .success c, [.fetchCredential idToVerify])
        else
          ({ s1 with credential := some c }, .success c, [.fetchCredential idToVerify])
    | .notFound =>
        ({ s1 with error := some "Credential not found or invalid token ID" },
          .notFound, [.fetchCredential idToVerify])
    | .threw m =>
        ({ s1 with error := some (jsOr m "Failed to verify credential") },
          .fetchError m, [.fetchCredential idToVerify])

/-- `handleVerify(id?)`: the looked-up identifier is `id || tokenId`
(the optional argument, defaulting to the `tokenId` state). -/
def handleVerify (fetch : String → FetchResult) (idArg : Option String)
    (s : PortalState) : PortalState × VerifyOutcome × List ExtEvent :=
  handleVerifyWith fetch (jsOr (idArg.getD "") s.tokenId) s

/-- State after one `handleVerify` call. -/
def verifyStep (fetch : String → FetchResult) (t : String) (s : PortalState) : PortalState :=
  (handleVerify fetch (some t) s).1

/-- Outcome of one `handleVerify` call. -/
def verifyOut (fetch : String → FetchResult) (t : String) (s : PortalState) : VerifyOutcome :=
  (handleVerify fetch (some t) s).2.1

/-- External calls made by one `handleVerify` call. -/
def verifyTrace (fetch : String → FetchResult) (t : String) (s : PortalState) : List ExtEvent :=
  (handleVerify fetch (some t) s).2.2

/-- `checkAccess`: queries `checkUserSubscription(walletAddress, 'employer')`
and stores the answer in the `hasAccess` state; a no-op without a wallet. -/
def checkAccess (oracle : String → String → Bool) (s : PortalState) :
    PortalState × List ExtEvent :=
  match s.walletAddress with
  | none => (s, [])
  | some w =>
      ({ s with hasAccess := oracle w "employer", checkingAccess := false },
        [.subscriptionCheck w "employer"])

/-- The `useEffect` keyed on `walletAddress`: runs `checkAccess` whenever a
wallet address is present.  This is the only place the portal consults the
subscription oracle. -/
def walletEffect (oracle : String → String → Bool) (s : PortalState) :
    PortalState × List ExtEvent :=
  match s.walletAddress with
  | some _ => checkAccess oracle s
  | none => (s, [])

/-- `checkWalletConnection`: adopts the first connected account, if any. -/
def checkWalletConnection (accounts : List String) (s : PortalState) : PortalState :=
  match accounts with
  | a :: _ => { s with walletAddress := some a }
  | [] => s

/-- The mount `useEffect` share-link path: a `?verify=` URL parameter is
written into the `tokenId` state and then passed to `handleVerify`. -/
def resolveShareLink (fetch : String → FetchResult) (p : String) (s : PortalState) :
    PortalState × VerifyOutcome × List ExtEvent :=
  handleVerify fetch (some p) { s with tokenId := p }

/-- A direct lookup: the caller has typed `p` into the search box (so the
`tokenId` state is `p`) and clicked Verify, which calls `handleVerify()`
with no argument. -/
def directVerify (fetch : String → FetchResult) (p : String) (s : PortalState) :
    PortalState × VerifyOutcome × List ExtEvent :=
  handleVerify fetch none { s with tokenId := p }

/-! ### Fixtures: concrete collaborators and states used to evaluate the model -/

/-- A concrete valid credential. -/
def cred1 : Credential :=
  { tokenId := "1"
    student := "0xS1"
    institution := "I1"
    degree := "BSc (2024)"
    issueDate := 1700000000
    ipfsHash := "QmHash1"
    revoked := false }

/-- A credential store in which every lookup finds `cred1`. -/
def fetchAlways : String → FetchResult := fun _ => .found cred1

/-- A subscription oracle that reports no active entitlement. -/
def oracleInactive : String → String → Bool := fun _ _ => false

/-- Portal state of the identity `0xE1`: wallet connected, no entitlement,
no verifications consumed yet. -/
def sE1 : PortalState :=
  (walletEffect oracleInactive (checkWalletConnection ["0xE1"] initialPortalState)).1

/-! ### Branch lemmas for `handleVerify` -/

theorem trim_ne_empty_of_ne {t : String} (ht : ¬ jsTrim t = "") : ¬ t = "" := by
  intro h
  subst h
  exact ht (by decide)

/-- An identified, unentitled caller below the limit, on a found credential:
the lookup runs and the counter goes up by one. -/
theorem handleVerify_found_unentitled (fetch : String → FetchResult) (t : String)
    (s : PortalState) (w : String) (c : Credential)
    (hw : s.walletAddress = some w) (ha : s.hasAccess = false)
    (hq : s.verificationCount < 3) (ht : ¬ jsTrim t = "") (hf : fetch t = .found c) :
    handleVerify fetch (some t) s =
      ({ s with
          loading := false
          error := none
          searched := true
          credential := some c
          verificationCount := s.verificationCount + 1 },
        .success c, [.fetchCredential t]) := by
  have ht0 : ¬ t = "" := trim_ne_empty_of_ne ht
  unfold handleVerify
  simp only [Option.getD, jsOr, if_neg ht0]
  unfold handleVerifyWith
  rw [if_neg ht, if_neg (by rintro ⟨-, -, h3⟩; omega)]
  dsimp only
  rw [hf]
  dsimp only
  rw [if_pos ⟨by rw [hw]; rfl, ha⟩]

/-- An identified, unentitled caller at or above the limit: the call fails
with the limit-reached error, opens the pricing modal, and makes no
external call at all (in particular the credential store is not
consulted). -/
theorem handleVerify_quota (fetch : String → FetchResult) (t : String)
    (s : PortalState) (w : String)
    (hw : s.walletAddress = some w) (ha : s.hasAccess = false)
    (hq : 3 ≤ s.verificationCount) (ht : ¬ jsTrim t = "") :
    handleVerify fetch (some t) s =
      ({ s with
          error := some "Verification limit reached. Please subscribe to continue."
          showPricing := true },
        .quotaExceeded, []) := by
  have ht0 : ¬ t = "" := trim_ne_empty_of_ne ht
  unfold handleVerify
  simp only [Option.getD, jsOr, if_neg ht0]
  unfold handleVerifyWith
  rw [if_neg ht, if_pos ⟨by rw [hw]; rfl, ha, hq⟩]

/-- An entitled caller, on a found credential: the lookup runs and the
counter is left unchanged. -/
theorem handleVerify_entitled (fetch : String → FetchResult) (t : String)
    (s : PortalState) (c : Credential)
    (ha : s.hasAccess = true) (ht : ¬ jsTrim t = "") (hf : fetch t = .found c) :
    handleVerify fetch (some t) s =
      ({ s with
          loading := false
          error := none
          searched := true
          credential := some c },
        .success c, [.fetchCredential t]) := by
  have ht0 : ¬ t = "" := trim_ne_empty_of_ne ht
  unfold handleVerify
  simp only [Option.getD, jsOr, if_neg ht0]
  unfold handleVerifyWith
  rw [if_neg ht, if_neg (by rintro ⟨-, h2, -⟩; rw [ha] at h2; cases h2)]
  dsimp only
  rw [hf]
  dsimp only
  rw [if_neg (by rintro ⟨-, h2⟩; rw [ha] at h2; cases h2)]

/-- Iterated `handleVerify` calls on the same identifier. -/
def verifyIter (fetch : String → FetchResult) (t : String) : Nat → PortalState → PortalState
  | 0, s => s
  | n + 1, s => verifyStep fetch t (verifyIter fetch t n s)

/-- `checkAccess` with a connected wallet: one oracle query, answer stored. -/
theorem checkAccess_some (oracle : String → String → Bool) (s : PortalState) (w : String)
    (hw : s.walletAddress = some w) :
    checkAccess oracle s =
      ({ s with hasAccess := oracle w "employer", checkingAccess := false },
        [.subscriptionCheck w "employer"]) := by
  unfold checkAccess
  rw [hw]

/-- One metered call: fields of the successor state and the outcome. -/
theorem verifyStep_fields (fetch : String → FetchResult) (t : String)
    (s : PortalState) (w : String) (c : Credential)
    (hw : s.walletAddress = some w) (ha : s.hasAccess = false)
    (hq : s.verificationCount < 3) (ht : ¬ jsTrim t = "") (hf : fetch t = .found c) :
    (verifyStep fetch t s).walletAddress = some w ∧
    (verifyStep fetch t s).hasAccess = false ∧
    (verifyStep fetch t s).verificationCount = s.verificationCount + 1 ∧
    verifyOut fetch t s = .success c := by
  have e1 := handleVerify_found_unentitled fetch t s w c hw ha hq ht hf
  refine ⟨?_, ?_, ?_, ?_⟩ <;> simp [verifyStep, verifyOut, e1, hw, ha]

/-- Entitled calls never change `hasAccess` or the counter, and always
succeed on a found credential, for any number of iterations. -/
theorem entitled_iter (fetch : String → FetchResult) (t : String) (c : Credential)
    (ht : ¬ jsTrim t = "") (hf : fetch t = .found c) :
    ∀ (n : Nat) (s : PortalState), s.hasAccess = true →
      (verifyIter fetch t n s).hasAccess = true ∧
      (verifyIter fetch t n s).verificationCount = s.verificationCount ∧
      verifyOut fetch t (verifyIter fetch t n s) = .success c := by
  intro n
  induction n with
  | zero =>
      intro s ha
      refine ⟨ha, rfl, ?_⟩
      simp [verifyIter, verifyOut, handleVerify_entitled fetch t s c ha ht hf]
  | succ n ih =>
      intro s ha
      obtain ⟨iha, ihc, -⟩ := ih s ha
      have e := handleVerify_entitled fetch t (verifyIter fetch t n s) c iha ht hf
      refine ⟨?_, ?_, ?_⟩
      · show (verifyStep fetch t (verifyIter fetch t n s)).hasAccess = true
        simp [verifyStep, e, iha]
      · show (verifyStep fetch t (verifyIter fetch t n s)).verificationCount = s.verificationCount
        simp [verifyStep, e, ihc]
      · show verifyOut fetch t (verifyStep fetch t (verifyIter fetch t n s)) = .success c
        have ha2 : (verifyStep fetch t (verifyIter fetch t n s)).hasAccess = true := by
          simp [verifyStep, e, iha]
        simp [verifyOut,
          handleVerify_entitled fetch t (verifyStep fetch t (verifyIter fetch t n s)) c ha2 ht hf]

/-- Claim C1: an identified, unentitled caller with limit 3, on valid tokens:
the first three `verify` calls succeed and raise the counter to 3; the
fourth fails with the quota-exceeded error and makes no external call (the
credential store is not consulted); after the entitlement oracle reports
the identity as active, every subsequent call succeeds and leaves the
counter at 3. -/
theorem verify_quota_scenario (fetch : String → FetchResult) (s : PortalState)
    (oracle : String → String → Bool) (w t : String) (c : Credential) (n : Nat)
    (hw : s.walletAddress = some w) (ha : s.hasAccess = false)
    (hc : s.verificationCount = 0) (ht : ¬ jsTrim t = "")
    (hf : fetch t = .found c) (ho : oracle w "employer" = true) :
    verifyOut fetch t s = .success c ∧
    verifyOut fetch t (verifyIter fetch t 1 s) = .success c ∧
    verifyOut fetch t (verifyIter fetch t 2 s) = .success c ∧
    (verifyIter fetch t 3 s).verificationCount = 3 ∧
    verifyOut fetch t (verifyIter fetch t 3 s) = .quotaExceeded ∧
    verifyTrace fetch t (verifyIter fetch t 3 s) = [] ∧
    (checkAccess oracle (verifyStep fetch t (verifyIter fetch t 3 s))).1.verificationCount = 3 ∧
    verifyOut fetch t
      (verifyIter fetch t n
        (checkAccess oracle (verifyStep fetch t (verifyIter fetch t 3 s))).1) = .success c ∧
    (verifyIter fetch t n
      (checkAccess oracle (verifyStep fetch t (verifyIter fetch t 3 s))).1).verificationCount
      = 3 := by
  obtain ⟨w1, a1, c1, o1⟩ :=
    verifyStep_fields fetch t s w c hw ha (by omega) ht hf
  have hit1 : verifyIter fetch t 1 s = verifyStep fetch t s := rfl
  obtain ⟨w2, a2, c2, o2⟩ :=
    verifyStep_fields fetch t (verifyStep fetch t s) w c w1 a1 (by omega) ht hf
  have hit2 : verifyIter fetch t 2 s = verifyStep fetch t (verifyStep fetch t s) := rfl
  obtain ⟨w3, a3, c3, o3⟩ :=
    verifyStep_fields fetch t (verifyStep fetch t (verifyStep fetch t s)) w c w2 a2
      (by omega) ht hf
  have hit3 :
      verifyIter fetch t 3 s = verifyStep fetch t (verifyStep fetch t (verifyStep fetch t s)) :=
    rfl
  have hcount3 : (verifyIter fetch t 3 s).verificationCount = 3 := by
    rw [hit3, c3, c2, c1, hc]
  have hw3 : (verifyIter fetch t 3 s).walletAddress = some w := by rw [hit3]; exact w3
  have ha3 : (verifyIter fetch t 3 s).hasAccess = false := by rw [hit3]; exact a3
  have equota :=
    handleVerify_quota fetch t (verifyIter fetch t 3 s) w hw3 ha3 (by omega) ht
  have hs4w : (verifyStep fetch t (verifyIter fetch t 3 s)).walletAddress = some w := by
    simp [verifyStep, equota, hw3]
  have hs4c : (verifyStep fetch t (verifyIter fetch t 3 s)).verificationCount = 3 := by
    simp [verifyStep, equota, hcount3]
  have eca := checkAccess_some oracle (verifyStep fetch t (verifyIter fetch t 3 s)) w hs4w
  have hs5a :
      (checkAccess oracle (verifyStep fetch t (verifyIter fetch t 3 s))).1.hasAccess = true := by
    rw [eca]
    exact ho
  have hs5c :
      (checkAccess oracle (verifyStep fetch t (verifyIter fetch t 3 s))).1.verificationCount
        = 3 := by
    rw [eca]
    exact hs4c
  obtain ⟨-, itc, ito⟩ := entitled_iter fetch t c ht hf n
    (checkAccess oracle (verifyStep fetch t (verifyIter fetch t 3 s))).1 hs5a
  refine ⟨o1, ?_, ?_, hcount3, ?_, ?_, hs5c, ito, ?_⟩
  · rw [hit1]
    exact o2
  · rw [hit2]
    exact o3
  · simp [verifyOut, equota]
  · simp [verifyTrace, equota]
  · rw [itc, hs5c]

/-- A subscription oracle that reports an active entitlement. -/
def oracleActive : String → String → Bool := fun _ _ => true

/-- Witness for Claim C1: the scenario evaluated for identity `0xE1`,
token `1`, with two further entitled calls. -/
theorem verify_quota_scenario_check :
    verifyOut fetchAlways "1" sE1 = .success cred1 ∧
    verifyOut fetchAlways "1" (verifyIter fetchAlways "1" 1 sE1) = .success cred1 ∧
    verifyOut fetchAlways "1" (verifyIter fetchAlways "1" 2 sE1) = .success cred1 ∧
    (verifyIter fetchAlways "1" 3 sE1).verificationCount = 3 ∧
    verifyOut fetchAlways "1" (verifyIter fetchAlways "1" 3 sE1) = .quotaExceeded ∧
    verifyTrace fetchAlways "1" (verifyIter fetchAlways "1" 3 sE1) = [] ∧
    (checkAccess oracleActive
      (verifyStep fetchAlways "1" (verifyIter fetchAlways "1" 3 sE1))).1.verificationCount = 3 ∧
    verifyOut fetchAlways "1"
      (verifyIter fetchAlways "1" 2
        (checkAccess oracleActive
          (verifyStep fetchAlways "1" (verifyIter fetchAlways "1" 3 sE1))).1) = .success cred1 ∧
    (verifyIter fetchAlways "1" 2
      (checkAccess oracleActive
        (verifyStep fetchAlways "1" (verifyIter fetchAlways "1" 3 sE1))).1).verificationCount
      = 3 :=
  verify_quota_scenario fetchAlways sE1 oracleActive "0xE1" "1" cred1 2
    rfl rfl rfl (by decide) rfl rfl

/-- Claim C7: resolving a share link (the `?verify=` URL parameter path) is
the same state transition, outcome and external-call trace as a direct
lookup of the same identifier by the same caller state — the shared path
runs through `handleVerify` and therefore through the identical quota and
entitlement checks. -/
theorem share_link_equals_direct_verify (fetch : String → FetchResult) (p : String)
    (s : PortalState) :
    resolveShareLink fetch p s = directVerify fetch p s := by
  unfold resolveShareLink directVerify handleVerify
  dsimp only [Option.getD]
  have h : jsOr p p = jsOr "" p := by
    by_cases h0 : p = "" <;> simp [jsOr, h0]
  rw [h]

/-- Claim C10: a `verify` call with no wallet connected is never rejected
with the quota-exceeded outcome and never changes the verification
counter, whatever the counter's value, the identifier and the store's
answer. -/
theorem anonymous_verify_unmetered (fetch : String → FetchResult) (idArg : Option String)
    (s : PortalState) (hw : s.walletAddress = none) :
    (handleVerify fetch idArg s).2.1 ≠ .quotaExceeded ∧
    (handleVerify fetch idArg s).1.verificationCount = s.verificationCount := by
  unfold handleVerify handleVerifyWith
  by_cases h1 : jsTrim (jsOr (idArg.getD "") s.tokenId) = ""
  · rw [if_pos h1]
    exact ⟨by simp, rfl⟩
  · rw [if_neg h1, if_neg (by rw [hw]; rintro ⟨h2, -⟩; cases h2)]
    dsimp only
    cases hf : fetch (jsOr (idArg.getD "") s.tokenId) with
    | found c =>
        have h2 : ¬ (s.walletAddress.isSome = true ∧ s.hasAccess = false) := by
          rw [hw]
          rintro ⟨h3, -⟩
          cases h3
        dsimp only
        rw [if_neg h2]
        exact ⟨by simp, rfl⟩
    | notFound => exact ⟨by simp, rfl⟩
    | threw m => exact ⟨by simp, rfl⟩

/-- Witness for Claim C10: an anonymous caller in the fresh portal state,
looking up token `1`, is served without a quota rejection and the counter
stays at its prior value. -/
theorem anonymous_verify_unmetered_check :
    (handleVerify fetchAlways (some "1") initialPortalState).2.1 ≠ .quotaExceeded ∧
    (handleVerify fetchAlways (some "1") initialPortalState).1.verificationCount
      = initialPortalState.verificationCount :=
  anonymous_verify_unmetered fetchAlways (some "1") initialPortalState rfl

/-- Claim C4 (failing input): the verification counter is the component's
`useState(0)` hook, so it is caller-held, not durable and not identity
keyed.  Identity `0xE1` consumes all 3 free verifications (call 4 is
quota-rejected); after a page reload the remounted component rebuilds its
state from `initialPortalState`, the same wallet reconnects, and the
counter is 0 again, so the next lookup succeeds — the counter was reset by
a new session, contradicting durability and monotonicity. -/
theorem quota_counter_reset_on_remount :
    (verifyIter fetchAlways "1" 3 sE1).verificationCount = 3 ∧
    verifyOut fetchAlways "1" (verifyIter fetchAlways "1" 3 sE1) = .quotaExceeded ∧
    sE1.verificationCount = 0 ∧
    verifyOut fetchAlways "1" sE1 = .success cred1 := by
  decide

/-- Claim C6 (failing input): two consecutive `verify` calls by the
connected identity `0xE1` each call only the credential store — neither
triggers a subscription-oracle check, because `hasAccess` is cached React
state; the oracle is consulted only by the `useEffect` that runs when the
wallet address changes. -/
theorem entitlement_cached_across_verify_calls :
    (handleVerify fetchAlways (some "1") sE1).2.2 = [.fetchCredential "1"] ∧
    (handleVerify fetchAlways (some "1")
      (handleVerify fetchAlways (some "1") sE1).1).2.2 = [.fetchCredential "1"] ∧
    (walletEffect oracleInactive (checkWalletConnection ["0xE1"] initialPortalState)).2
      = [.subscriptionCheck "0xE1" "employer"] := by
  decide

/-! ### Interleaved verification calls

`handleVerify` is async: the quota guard runs synchronously when the call
starts, but the counter increment runs in the continuation after the
`await verifyCredential(...)` resolves.  The model below splits the handler
at that suspension point.  A pending call captures the `walletAddress` and
`hasAccess` values its closure saw; the counter is updated with the
functional `prev => prev + 1` form, i.e. against the counter current at
completion time. -/

/-- A `handleVerify` invocation suspended at `await verifyCredential`. -/
structure PendingCall where
  id : String
  wallet : Option String
  access : Bool
deriving DecidableEq

/-- Portal state plus in-flight calls and outcome counters. -/
structure ConcState where
  portal : PortalState
  pending : List PendingCall
  successes : Nat
  quotaRejects : Nat
deriving DecidableEq

/-- The synchronous prefix of `handleVerify`: empty-input check, quota
guard, state resets; a call that passes the guard becomes pending. -/
def startVerify (idArg : Option String) (cs : ConcState) : ConcState :=
  let s := cs.portal
  let idToVerify := jsOr (idArg.getD "") s.tokenId
  if jsTrim idToVerify = "" then
    { cs with portal := { s with error := some "Please enter a token ID" } }
  else if s.walletAddress.isSome = true ∧ s.hasAccess = false ∧ 3 ≤ s.verificationCount then
    { cs with
        portal := { s with
          error := some "Verification limit reached. Please subscribe to continue."
          showPricing := true }
        quotaRejects := cs.quotaRejects + 1 }
  else
    { cs with
        portal := { s with loading := true, error := none, credential := none, searched := true }
        pending := cs.pending ++ [{ id := idToVerify, wallet := s.walletAddress, access := s.hasAccess }] }

/-- The continuation of pending call `n` once its store lookup resolves to
`res`: record the result, and on a found credential increment the counter
when the captured wallet was present without access. -/
def completeVerify (n : Nat) (res : FetchResult) (cs : ConcState) : ConcState :=
  match cs.pending[n]? with
  | none => cs
  | some pc =>
      let cs1 := { cs with pending := cs.pending.eraseIdx n }
      let s := cs1.portal
      match res with
      | .found c =>
          if pc.wallet.isSome = true ∧ pc.access = false then
            { cs1 with
                portal := { s with
                  credential := some c
                  loading := false
                  verificationCount := s.verificationCount + 1 }
                successes := cs1.successes + 1 }
          else
            { cs1 with
                portal := { s with credential := some c, loading := false }
                successes := cs1.successes + 1 }
      | .notFound =>
          { cs1 with
              portal := { s with
                error := some "Credential not found or invalid token ID"
                loading := false } }
      | .threw m =>
          { cs1 with
              portal := { s with
                error := some (jsOr m "Failed to verify credential")
                loading := false } }

/-- One event-loop action: a call starting, or a pending call resolving. -/
inductive ConcAction
  | start (idArg : Option String)
  | complete (n : Nat) (res : FetchResult)
deriving DecidableEq

/-- Run a schedule of interleaved actions. -/
def runConc (acts : List ConcAction) (cs : ConcState) : ConcState :=
  acts.foldl
    (fun cs a =>
      match a with
      | .start idArg => startVerify idArg cs
      | .complete n res => completeVerify n res cs)
    cs

/-- The interleaving that overruns the quota: two calls finish one after
the other, then two further calls start while neither store lookup has
resolved yet. -/
def overrunSchedule : List ConcAction :=
  [ .start (some "1"), .complete 0 (.found cred1),
    .start (some "1"), .complete 0 (.found cred1),
    .start (some "1"), .start (some "1"),
    .complete 0 (.found cred1), .complete 0 (.found cred1) ]

/-- Claim C8 (failing input): four `verify` calls by the single unentitled
identity `0xE1` under the `overrunSchedule` interleaving all succeed — the
third and fourth call both pass the `count < 3` guard at count 2, because
the guard and the increment are separated by the `await` on the store
lookup.  The claimed bound of exactly 3 successes is exceeded and no call
is quota-rejected. -/
theorem quota_overrun_under_interleaving :
    (runConc overrunSchedule { portal := sE1, pending := [], successes := 0, quotaRejects := 0 }).successes = 4 ∧
    (runConc overrunSchedule { portal := sE1, pending := [], successes := 0, quotaRejects := 0 }).quotaRejects = 0 ∧
    (runConc overrunSchedule { portal := sE1, pending := [], successes := 0, quotaRejects := 0 }).portal.verificationCount = 4 := by
  decide

/-! ### Issuance: `InstitutionDashboard.handleSubmit`

The submit handler validates the form, uploads the document, mints on the
ledger, and (when a wallet is connected) writes the credential record to
the off-chain index.  Each collaborator is a parameter returning
`Except String`; a `.error` models the promise rejecting, which the
handler's single `try/catch` turns into a displayed error.  The trace
records which collaborators were reached.  Stats reload and form reset
after success are UI refreshes and are not modelled. -/

/-- The issuance form state (`IssuanceFormData` plus the picked file as raw
bytes; `none` models no file picked). -/
structure IssuanceForm where
  studentName : String
  studentAddress : String
  degree : String
  institution : String
  graduationYear : String
  document : Option (List Nat)
deriving DecidableEq

/-- Result of the on-chain `issueCredential` call. -/
structure MintResult where
  tokenId : String
  txHash : String
deriving DecidableEq

/-- Arguments passed to `saveCredential`, the index write. -/
structure SaveArgs where
  tokenId : String
  studentAddress : String
  institution : String
  issuer : String
  degreeLabel : String
  ipfsHash : String
deriving DecidableEq

/-- The collaborator calls the submit handler can make, in order. -/
inductive IssueEvent
  | uploadDoc
  | ledgerMint
  | indexWrite
deriving DecidableEq

/-- What the submit handler displays at the end. -/
inductive SubmitOutcome
  | issued (tokenId : String) (txHash : String)
  | failed (msg : String)
deriving DecidableEq

/-- A hexadecimal digit. -/
def isHexDigit (c : Char) : Bool :=
  (decide ('0' ≤ c) && decide (c ≤ '9')) ||
  (decide ('a' ≤ c) && decide (c ≤ 'f')) ||
  (decide ('A' ≤ c) && decide (c ≤ 'F'))

/-- The address check `/^0x[a-fA-F0-9]\x7b40\x7d$/` of the submit handler. -/
def isEthAddress (s : String) : Bool :=
  match s.toList with
  | '0' :: 'x' :: rest => decide (rest.length = 40) && rest.all isHexDigit
  | _ => false

/-- `handleSubmit` (InstitutionDashboard lines 72–120): document-presence
check, address-format check, then upload → mint → index write, any thrown
step caught and displayed as failure. -/
def handleSubmit (wallet : Option String)
    (upload : List Nat → Except String String)
    (mint : String → String → String → String → Except String MintResult)
    (save : SaveArgs → Except String Unit)
    (form : IssuanceForm) : SubmitOutcome × List IssueEvent :=
  match form.document with
  | none => (.failed (jsOr "Please upload a document" "Failed to issue credential"), [])
  | some doc =>
      if isEthAddress form.studentAddress = false then
        (.failed (jsOr "Invalid Ethereum address" "Failed to issue credential"), [])
      else
        match upload doc with
        | .error m => (.failed (jsOr m "Failed to issue credential"), [.uploadDoc])
        | .ok ipfsHash =>
            let degreeLabel := form.degree ++ " (" ++ form.graduationYear ++ ")"
            match mint form.studentAddress ipfsHash degreeLabel form.institution with
            | .error m => (.failed (jsOr m "Failed to issue credential"), [.uploadDoc, .ledgerMint])
            | .ok r =>
                match wallet with
                | some w =>
                    match save { tokenId := r.tokenId, studentAddress := form.studentAddress,
                                 institution := form.institution, issuer := w,
                                 degreeLabel := degreeLabel, ipfsHash := ipfsHash } with
                    | .error m =>
                        (.failed (jsOr m "Failed to issue credential"),
                          [.uploadDoc, .ledgerMint, .indexWrite])
                    | .ok _ =>
                        (.issued r.tokenId r.txHash, [.uploadDoc, .ledgerMint, .indexWrite])
                | none => (.issued r.tokenId r.txHash, [.uploadDoc, .ledgerMint])

/-- A syntactically valid Ethereum address for the student. -/
def validAddr : String := "0x0123456789abcdef0123456789abcdef01234567"

/-- A filled-in issuance form with a non-empty document. -/
def validForm : IssuanceForm :=
  { studentName := "Alice"
    studentAddress := validAddr
    degree := "BSc"
    institution := "I1"
    graduationYear := "2024"
    document := some [1, 2, 3] }

/-- An upload that succeeds with a fixed content hash. -/
def uploadOk : List Nat → Except String String := fun _ => .ok "QmHash1"

/-- A ledger mint that succeeds with token `1`. -/
def mintOk : String → String → String → String → Except String MintResult :=
  fun _ _ _ _ => .ok { tokenId := "1", txHash := "0xtx1" }

/-- An index write that succeeds. -/
def saveOk : SaveArgs → Except String Unit := fun _ => .ok ()

/-- An index write that rejects. -/
def saveFail : SaveArgs → Except String Unit := fun _ => .error "index unavailable"

/-- Claim C5 (failing input): the document uploads and the ledger mint
succeeds (the trace reaches `ledgerMint`), then the index write rejects —
and the submit handler reports failure to the caller instead of success,
because the single `try/catch` treats the index write as fatal. -/
theorem index_write_failure_fails_submit :
    handleSubmit (some "0xI1") uploadOk mintOk saveFail validForm
      = (.failed "index unavailable", [.uploadDoc, .ledgerMint, .indexWrite]) := by
  decide

/-- Claim C9 counterexample: a present but empty document (`some []`) with a
well-formed student address is not rejected — the upload, mint and index
write all run and issuance reports success, so emptiness of the document
bytes is not validated. -/
theorem empty_document_not_rejected :
    handleSubmit (some "0xI1") uploadOk mintOk saveOk
        { validForm with document := some [] }
      = (.issued "1" "0xtx1", [.uploadDoc, .ledgerMint, .indexWrite]) := by
  decide

/-- Claim C9 as amended: when the document is absent, or the student
address fails the address-grammar check, the submit handler rejects with
the corresponding validation error and no collaborator is called (empty
trace) — but a present-and-empty document is not rejected. -/
theorem validation_rejects_before_side_effects (wallet : Option String)
    (upload : List Nat → Except String String)
    (mint : String → String → String → String → Except String MintResult)
    (save : SaveArgs → Except String Unit) (form : IssuanceForm) :
    (form.document = none →
      handleSubmit wallet upload mint save form
        = (.failed "Please upload a document", [])) ∧
    (∀ doc : List Nat, form.document = some doc →
      isEthAddress form.studentAddress = false →
      handleSubmit wallet upload mint save form
        = (.failed "Invalid Ethereum address", [])) := by
  constructor
  · intro h
    simp [handleSubmit, h, jsOr]
  · intro doc h hb
    simp [handleSubmit, h, hb, jsOr]

/-- Witness for Claim C9 (amended): a form without a document is rejected
with the upload-prompt error, and a form with a malformed address is
rejected with the address error, both with no collaborator called. -/
theorem validation_rejects_check :
    handleSubmit (some "0xI1") uploadOk mintOk saveOk
        { validForm with document := none }
      = (.failed "Please upload a document", []) ∧
    handleSubmit (some "0xI1") uploadOk mintOk saveOk
        { validForm with studentAddress := "bogus" }
      = (.failed "Invalid Ethereum address", []) :=
  ⟨(validation_rejects_before_side_effects (some "0xI1") uploadOk mintOk saveOk
      { validForm with document := none }).1 rfl,
   (validation_rejects_before_side_effects (some "0xI1") uploadOk mintOk saveOk
      { validForm with studentAddress := "bogus" }).2 [1, 2, 3] rfl (by decide)⟩

/-! ### Gateway read path and ledger revocation (spec-modelled) -/

/-- Modelled from the spec: the `verifyCredential` read path (the
VerificationGateway and RevocationTracker of §4.2/§4.3 live in
`utils/blockchain`, which is not among the given sources).  Per the spec,
a read consults the index first for latency, cross-checks the ledger for
the revocation bit on every read, and the ledger wins on `revoked`; with
no index record the ledger answer is returned. -/
def gatewayResolve (ledger index : Nat → Option Credential) (tid : Nat) :
    Option Credential :=
  match index tid with
  | some ic =>
      match ledger tid with
      | some lc => some { ic with revoked := ic.revoked || lc.revoked }
      | none => some ic
  | none => ledger tid

/-- Modelled from the spec: the only ledger mutations are minting a fresh
token and setting the revocation bit; no unrevoke operation exists
(§4.3: irreversible one-way `false → true`). -/
inductive LedgerOp
  | mintTok (tid : Nat) (c : Credential)
  | revokeTok (tid : Nat)
deriving DecidableEq

/-- Apply one ledger operation; a mint of an already-assigned tokenId is a
no-op (the ledger assigns unique identifiers). -/
def applyOp : LedgerOp → (Nat → Option Credential) → Nat → Option Credential
  | .mintTok tid c, l => fun t =>
      if t = tid then
        if (l tid).isSome = true then l t else some { c with revoked := false }
      else l t
  | .revokeTok tid, l => fun t =>
      if t = tid then (l t).map (fun c => { c with revoked := true }) else l t

/-- Apply a sequence of ledger operations, oldest first. -/
def applyOps (ops : List LedgerOp) (l : Nat → Option Credential) :
    Nat → Option Credential :=
  ops.foldl (fun l op => applyOp op l) l

/-- A recorded revocation survives any single ledger operation. -/
theorem applyOp_preserves_revoked (op : LedgerOp) (l : Nat → Option Credential)
    (tid : Nat) (c : Credential) (h : l tid = some c) (hr : c.revoked = true) :
    ∃ c', applyOp op l tid = some c' ∧ c'.revoked = true := by
  cases op with
  | mintTok tid2 c2 =>
      by_cases he : tid = tid2
      · subst he
        refine ⟨c, ?_, hr⟩
        simp [applyOp, h]
      · exact ⟨c, by simp [applyOp, he, h], hr⟩
  | revokeTok tid2 =>
      by_cases he : tid = tid2
      · subst he
        exact ⟨{ c with revoked := true }, by simp [applyOp, h], rfl⟩
      · exact ⟨c, by simp [applyOp, he, h], hr⟩

/-- A recorded revocation survives any sequence of ledger operations. -/
theorem applyOps_preserves_revoked (ops : List LedgerOp) :
    ∀ (l : Nat → Option Credential) (tid : Nat) (c : Credential),
      l tid = some c → c.revoked = true →
      ∃ c', applyOps ops l tid = some c' ∧ c'.revoked = true := by
  induction ops with
  | nil => exact fun l tid c h hr => ⟨c, h, hr⟩
  | cons op ops ih =>
      intro l tid c h hr
      obtain ⟨c1, h1, hr1⟩ := applyOp_preserves_revoked op l tid c h hr
      exact ih (applyOp op l) tid c1 h1 hr1

/-- Claim C2: once the ledger records `revoked = true` for a tokenId, every
subsequent `verify` read of that tokenId — after any further ledger
operations, and against any index, in particular one still reporting
`revoked = false` — returns a credential with `revoked = true`. -/
theorem revocation_monotonic_ledger_wins (l idx : Nat → Option Credential)
    (ops : List LedgerOp) (tid : Nat) (c c' : Credential)
    (hl : l tid = some c) (hr : c.revoked = true)
    (hres : gatewayResolve (applyOps ops l) idx tid = some c') :
    c'.revoked = true := by
  obtain ⟨c2, h2, hr2⟩ := applyOps_preserves_revoked ops l tid c hl hr
  unfold gatewayResolve at hres
  cases hidx : idx tid with
  | none =>
      rw [hidx] at hres
      dsimp only at hres
      rw [h2] at hres
      cases hres
      exact hr2
  | some ic =>
      rw [hidx] at hres
      dsimp only at hres
      rw [h2] at hres
      dsimp only at hres
      cases hres
      simp [hr2]

/-- `cred1` marked revoked. -/
def credRevoked : Credential := { cred1 with revoked := true }

/-- Another credential, minted later in the witness scenario. -/
def cred2 : Credential := { cred1 with tokenId := "2" }

/-- A ledger where token 1 is recorded revoked. -/
def ledger1 : Nat → Option Credential := fun t => if t = 1 then some credRevoked else none

/-- A stale index that still reports token 1 as not revoked. -/
def index1 : Nat → Option Credential := fun t => if t = 1 then some cred1 else none

/-- Witness for Claim C2: the index reports token 1 `revoked = false` while
the ledger reports it `revoked = true`; after a further mint the resolve
still returns the credential marked revoked. -/
theorem revocation_monotonic_check :
    index1 1 = some cred1 ∧ cred1.revoked = false ∧
    gatewayResolve (applyOps [LedgerOp.mintTok 2 cred2] ledger1) index1 1
      = some credRevoked ∧
    credRevoked.revoked = true :=
  ⟨rfl, rfl, rfl,
    revocation_monotonic_ledger_wins ledger1 index1 [LedgerOp.mintTok 2 cred2] 1
      credRevoked credRevoked rfl rfl rfl⟩

/-! ### Idempotent issuance (spec-modelled) -/

/-- Modelled from the spec: the idempotency key of §4.1, derived from
`(institutionIdentity, studentIdentity, degreeLabel, contentHash)`.  The
mint call `issueCredential` lives in `utils/blockchain`, outside the given
sources; the submit handler passes it exactly these inputs. -/
structure IdemKey where
  institution : String
  student : String
  degreeLabel : String
  contentHash : String
deriving DecidableEq

/-- The idempotency key derived from the issuance request contents. -/
def mkIdemKey (inst stud degree contentHash : String) : IdemKey :=
  { institution := inst, student := stud, degreeLabel := degree, contentHash := contentHash }

/-- Modelled from the spec: the ledger's committed mints, keyed by
idempotency key, plus the next token identifier to assign. -/
structure LedgerSt where
  mints : List (IdemKey × Nat)
  nextId : Nat
deriving DecidableEq

/-- Modelled from the spec: submitting a mint under an idempotency key.  A
key already committed returns the existing tokenId without a new mint
(§7: `DuplicateIssuanceError` is resolved by returning the existing
credential); a fresh key commits one mint. -/
def ledgerMint (k : IdemKey) (st : LedgerSt) : Nat × LedgerSt :=
  match st.mints.find? (fun p => decide (p.1 = k)) with
  | some p => (p.2, st)
  | none => (st.nextId, { mints := (k, st.nextId) :: st.mints, nextId := st.nextId + 1 })

/-- Modelled from the spec: `issue` per §4.1 — store the document in the
content-addressed store (`put`, a deterministic function of the bytes),
derive the idempotency key from the request contents, and submit the
mint under that key. -/
def issue (put : List Nat → String) (inst stud degree : String) (doc : List Nat)
    (st : LedgerSt) : Nat × LedgerSt :=
  ledgerMint (mkIdemKey inst stud degree (put doc)) st

/-- Claim C3: issuing twice with identical inputs commits exactly one mint
— the first call records a single entry under the key derived from
`(institution, student, degreeLabel, contentHash)`, and the second call
returns the same tokenId and leaves the ledger unchanged. -/
theorem issue_idempotent (put : List Nat → String) (inst stud degree : String)
    (doc : List Nat) (st0 : LedgerSt)
    (hfresh : st0.mints.find?
      (fun p => decide (p.1 = mkIdemKey inst stud degree (put doc))) = none) :
    (issue put inst stud degree doc (issue put inst stud degree doc st0).2).1
      = (issue put inst stud degree doc st0).1 ∧
    (issue put inst stud degree doc (issue put inst stud degree doc st0).2).2
      = (issue put inst stud degree doc st0).2 ∧
    (issue put inst stud degree doc st0).2.mints
      = (mkIdemKey inst stud degree (put doc), (issue put inst stud degree doc st0).1)
          :: st0.mints := by
  have e1 : issue put inst stud degree doc st0
      = (st0.nextId,
          { mints := (mkIdemKey inst stud degree (put doc), st0.nextId) :: st0.mints,
            nextId := st0.nextId + 1 }) := by
    unfold issue ledgerMint
    rw [hfresh]
  have e2 : issue put inst stud degree doc (issue put inst stud degree doc st0).2
      = (st0.nextId, (issue put inst stud degree doc st0).2) := by
    rw [e1]
    unfold issue ledgerMint
    rw [List.find?_cons_of_pos _ (by simp)]
  refine ⟨?_, ?_, ?_⟩
  · rw [e2, e1]
  · rw [e2]
  · rw [e1]

/-- The empty ledger. -/
def ledgerEmpty : LedgerSt := { mints := [], nextId := 1 }

/-- A content store hashing function for the witness. -/
def putHash : List Nat → String := fun _ => "QmHash1"

/-- Witness for Claim C3: issuing the same `(I1, 0xS1, BSc (2024), bytes)`
request twice against the empty ledger mints once and returns token 1 both
times. -/
theorem issue_idempotent_check :
    (issue putHash "I1" "0xS1" "BSc (2024)" [1, 2, 3]
        (issue putHash "I1" "0xS1" "BSc (2024)" [1, 2, 3] ledgerEmpty).2).1
      = (issue putHash "I1" "0xS1" "BSc (2024)" [1, 2, 3] ledgerEmpty).1 ∧
    (issue putHash "I1" "0xS1" "BSc (2024)" [1, 2, 3]
        (issue putHash "I1" "0xS1" "BSc (2024)" [1, 2, 3] ledgerEmpty).2).2
      = (issue putHash "I1" "0xS1" "BSc (2024)" [1, 2, 3] ledgerEmpty).2 ∧
    (issue putHash "I1" "0xS1" "BSc (2024)" [1, 2, 3] ledgerEmpty).2.mints
      = (mkIdemKey "I1" "0xS1" "BSc (2024)" (putHash [1, 2, 3]),
          (issue putHash "I1" "0xS1" "BSc (2024)" [1, 2, 3] ledgerEmpty).1)
          :: ledgerEmpty.mints :=
  issue_idempotent putHash "I1" "0xS1" "BSc (2024)" [1, 2, 3] ledgerEmpty rfl
